import Mathlib

/-!
Verification development for a minimal async UDP relay.

The repository consists of a `common` library crate (the canonical relay:
`Message`, `AsyncChannel`, `Network`, `bind_socket`, `send_loop`,
`recv_loop`, `send_message`, `recv_message`) and a `server` binary crate
that contains a near-duplicate inlined copy of the same machinery.
Here both variants are shallowly embedded as pure Lean functions:

* the flume channel is a queue state (`FlumeChannel`) with handle counts
  and an optional capacity (`none` = unbounded, as created by
  `AsyncChannel::new` via `flume::unbounded`);
* each background loop is embedded as a function from a finite list of
  per-iteration environment inputs (dequeue outcomes, socket read
  outcomes, write outcomes) to the trace of observable events it emits
  (socket writes, queue enqueues, warning logs);
* `Network` is a record of the two optional task handles and the two
  channels, and `try_send` / `try_recv` / `startup` are explicit
  state-passing functions;
* a bind failure (Rust `panic!`) is an `Except.error` carrying the panic
  message string.
-/

/-- The receive buffer size from `const BUFFER_MAX_SIZE: usize = 2000`. -/
def BUFFER_MAX_SIZE : Nat := 2000

/-- A transport endpoint: IPv4 interface (four octets) plus a port. -/
structure SocketAddr where
  ip : Nat × Nat × Nat × Nat
  port : Nat
deriving DecidableEq, Repr

/-- Renders an address as `a.b.c.d:port`, as Rust's `Display` for
`SocketAddr` does in the `panic!`/`warn!` format strings. -/
def addrToString (a : SocketAddr) : String :=
  Nat.repr a.ip.1 ++ "." ++ Nat.repr a.ip.2.1 ++ "." ++ Nat.repr a.ip.2.2.1
    ++ "." ++ Nat.repr a.ip.2.2.2 ++ ":" ++ Nat.repr a.port

/-- An address-tagged byte payload (`struct Message`). Bytes are
modelled as `Nat`. -/
structure Message where
  address : SocketAddr
  payload : List Nat
deriving DecidableEq, Repr

/-- Rust `Message::new` stores both fields unchanged. -/
def Message.new (address : SocketAddr) (payload : List Nat) : Message :=
  { address := address, payload := payload }

/-- The classes of `std::io::ErrorKind` the code distinguishes:
`ConnectionReset` is special-cased in the library's `recv_loop`;
everything else is only ever logged. -/
inductive IOErrorKind where
  | connectionReset
  | addrInUse
  | permissionDenied
  | other (code : Nat)
deriving DecidableEq, Repr

/-- Debug rendering of an error kind, standing in for Rust's `{:?}`. -/
def ioErrorKindRepr (k : IOErrorKind) : String :=
  match k with
  | .connectionReset => "ConnectionReset"
  | .addrInUse => "AddrInUse"
  | .permissionDenied => "PermissionDenied"
  | .other code => "Other(" ++ Nat.repr code ++ ")"

/-- State of one flume channel: the buffered items (oldest first), the
capacity (`none` for `flume::unbounded`), and how many sender/receiver
handles are still alive. -/
structure FlumeChannel (T : Type) where
  queue : List T
  capacity : Option Nat
  senderCount : Nat
  receiverCount : Nat
deriving DecidableEq, Repr

/-- Dequeue error of `flume::Receiver::try_recv`. -/
inductive TryRecvError where
  | empty
  | disconnected
deriving DecidableEq, Repr

/-- Enqueue error of `flume::Sender::try_send`; both variants carry the
rejected item back to the caller. -/
inductive TrySendError (T : Type) where
  | full (item : T)
  | disconnected (item : T)
deriving DecidableEq, Repr

namespace Flume

/-- Model of `flume::Receiver::try_recv`: non-blocking. Returns the oldest item
when one is buffered; on an empty buffer reports `Disconnected` when no
sender handle remains and `Empty` otherwise. Total (never blocks, never
panics). -/
def try_recv {T : Type} (c : FlumeChannel T) :
    Except TryRecvError T × FlumeChannel T :=
  match c.queue with
  | [] =>
    (.error (if c.senderCount = 0 then .disconnected else .empty), c)
  | item :: rest => (.ok item, { c with queue := rest })

/-- Model of `flume::Sender::try_send`: non-blocking. Fails with `Disconnected`
when no receiver handle remains; fails with `Full` when a bounded
channel is at capacity; otherwise appends the item at the tail. -/
def try_send {T : Type} (c : FlumeChannel T) (item : T) :
    Except (TrySendError T) Unit × FlumeChannel T :=
  if c.receiverCount = 0 then
    (.error (.disconnected item), c)
  else
    match c.capacity with
    | some cap =>
      if cap ≤ c.queue.length then (.error (.full item), c)
      else (.ok (), { c with queue := c.queue ++ [item] })
    | none => (.ok (), { c with queue := c.queue ++ [item] })

end Flume

/-- Rust `AsyncChannel::new` builds a fresh `flume::unbounded()` pair and
holds one sender and one receiver handle. -/
def AsyncChannel.new (T : Type) : FlumeChannel T :=
  { queue := [], capacity := none, senderCount := 1, receiverCount := 1 }

/-- A UDP socket, identified by the local address it was bound to. -/
structure Socket where
  local_addr : SocketAddr
deriving DecidableEq, Repr

/-- Whether the OS accepts or rejects a bind attempt (environment
choice: address in use, permission denied, ...). -/
inductive BindOutcome where
  | ok
  | err (k : IOErrorKind)
deriving DecidableEq, Repr

/-- The library's `bind_socket(port: u16)`: it constructs the bind
address itself as `SocketAddr::from(([127, 0, 0, 1], port))` and panics
with `failed to listen on {bind_addr}: {err:?}` when the bind fails. -/
def bind_socket (port : Nat) (outcome : BindOutcome) :
    Except String Socket :=
  let bind_addr : SocketAddr := { ip := (127, 0, 0, 1), port := port }
  match outcome with
  | .ok => .ok { local_addr := bind_addr }
  | .err err =>
    .error ("failed to listen on " ++ addrToString bind_addr ++ ": "
      ++ ioErrorKindRepr err)

/-- The server binary's `bind_socket(socket_addr: SocketAddr)`: binds to
exactly the given address and panics with the same message shape on
failure. -/
def bind_socket_server (socket_addr : SocketAddr) (outcome : BindOutcome) :
    Except String Socket :=
  match outcome with
  | .ok => .ok { local_addr := socket_addr }
  | .err err =>
    .error ("failed to listen on " ++ addrToString socket_addr ++ ": "
      ++ ioErrorKindRepr err)

/-- Handle of a spawned background task, recording which loop it runs
and the socket clone moved into it. -/
inductive TaskHandle where
  | sendLoopTask (socket : Socket)
  | recvLoopTask (socket : Socket)
deriving DecidableEq, Repr

/-- The `Network` resource: two optional task handles (absent until
`startup`) and the two `AsyncChannel`s. -/
structure Network where
  send_task : Option TaskHandle
  recv_task : Option TaskHandle
  send_channel : FlumeChannel Message
  recv_channel : FlumeChannel Message
deriving DecidableEq, Repr

/-- Rust `Network::new`: both channels fresh and unbounded, no tasks. -/
def Network.new : Network :=
  { send_task := none
    recv_task := none
    send_channel := AsyncChannel.new Message
    recv_channel := AsyncChannel.new Message }

/-- Rust `Network::try_recv`: delegates to `try_recv` on the receiver handle
of `recv_channel`; the updated network carries the dequeued state. -/
def Network.try_recv (net : Network) :
    Except TryRecvError Message × Network :=
  let (result, channel) := Flume.try_recv net.recv_channel
  (result, { net with recv_channel := channel })

/-- Rust `Network::try_send`: delegates to `try_send` on the sender handle of
`send_channel`. -/
def Network.try_send (net : Network) (message : Message) :
    Except (TrySendError Message) Unit × Network :=
  let (result, channel) := Flume.try_send net.send_channel message
  (result, { net with send_channel := channel })

/-- Rust `Network::startup`: binds the socket first (propagating the panic as
`Except.error`, in which case no field of the network is assigned), then
spawns the two loops with clones of the socket, a clone of the outbound
receiver handle and a clone of the inbound sender handle, storing both
task handles. -/
def Network.startup (net : Network) (port : Nat) (outcome : BindOutcome) :
    Except String Network :=
  match bind_socket port outcome with
  | .error msg => .error msg
  | .ok socket =>
    .ok { net with
      send_task := some (.sendLoopTask socket)
      recv_task := some (.recvLoopTask socket)
      send_channel := { net.send_channel with
        receiverCount := net.send_channel.receiverCount + 1 }
      recv_channel := { net.recv_channel with
        senderCount := net.recv_channel.senderCount + 1 } }

/-!
## Background loops as trace functions

Each infinite loop is embedded as a function from a finite list of
per-iteration environment inputs to the finite trace of observable
events of those iterations. An event is a socket write (`send_to`), an
enqueue into the inbound channel, or a `warn!` log line.
-/

/-- An observable event of a background loop. -/
inductive NetEvent where
  | write (payload : List Nat) (addr : SocketAddr)
  | enqueue (message : Message)
  | logWarn (text : String)
deriving DecidableEq, Repr

/-- Whether an event is a socket write. -/
def NetEvent.isWrite (e : NetEvent) : Bool :=
  match e with
  | .write _ _ => true
  | _ => false

/-- Whether an event is an inbound-queue enqueue. -/
def NetEvent.isEnqueue (e : NetEvent) : Bool :=
  match e with
  | .enqueue _ => true
  | _ => false

/-- Outcome of the socket write attempted by `send_message`. -/
inductive WriteOutcome where
  | ok
  | err (k : IOErrorKind)
deriving DecidableEq, Repr

/-- One iteration's input to the send loop: either the channel yields a
message (together with the outcome of the write the loop will attempt),
or the dequeue fails because all senders were dropped. -/
inductive SendIterInput where
  | ok (message : Message) (write : WriteOutcome)
  | disconnected
deriving DecidableEq, Repr

/-- Rust `send_message` (identical in both crates): one `send_to` of the
message's payload to the message's address; on failure a `warn!` naming
the target address, and nothing else. -/
def send_message (message : Message) (write : WriteOutcome) :
    List NetEvent :=
  NetEvent.write message.payload message.address ::
    match write with
    | .ok => []
    | .err _ =>
      [NetEvent.logWarn ("failed to send packet to "
        ++ addrToString message.address)]

/-- The library's `send_loop`: awaits `recv_async()` on the outbound
channel; on a message it runs `send_message`, on `Disconnected` it logs
and keeps looping. -/
def send_loop (inputs : List SendIterInput) : List NetEvent :=
  match inputs with
  | [] => []
  | .ok message write :: rest => send_message message write ++ send_loop rest
  | .disconnected :: rest =>
    NetEvent.logWarn "failed to dequeue outgoing message" :: send_loop rest

/-- The server binary's `send_loop`: identical shape, but dequeues with
the blocking `recv()` (same per-outcome behaviour). -/
def send_loop_server (inputs : List SendIterInput) : List NetEvent :=
  match inputs with
  | [] => []
  | .ok message write :: rest =>
    send_message message write ++ send_loop_server rest
  | .disconnected :: rest =>
    NetEvent.logWarn "failed to dequeue outgoing message"
      :: send_loop_server rest

/-- One iteration's input to the receive loop: either `recv_from`
returns a datagram from `src` (with `enqueueOk` telling whether the
inbound channel still has a receiver when `recv_message` sends into it),
or it fails with an error kind. -/
inductive RecvIterInput where
  | ok (src : SocketAddr) (datagram : List Nat) (enqueueOk : Bool)
  | err (k : IOErrorKind)
deriving DecidableEq, Repr

/-- The effect of `socket.recv_from(&mut buf)` on the 2000-byte buffer:
the first `min (length datagram) BUFFER_MAX_SIZE` bytes of the datagram
overwrite the front of the buffer (excess datagram bytes are discarded),
and that count is returned as `amt`. -/
def recvFromWrite (buf : List Nat) (datagram : List Nat) :
    Nat × List Nat :=
  let amt := min datagram.length BUFFER_MAX_SIZE
  (amt, datagram.take amt ++ buf.drop amt)

/-- Rust `recv_message` (identical in both crates): builds
`Message::new(*source, buf.to_vec())` from the bytes passed in and sends
it into the inbound channel; on send failure a `warn!`. -/
def recv_message (source : SocketAddr) (buf : List Nat)
    (enqueueOk : Bool) : List NetEvent :=
  if enqueueOk then [NetEvent.enqueue (Message.new source buf)]
  else [NetEvent.logWarn "failed to enqueue incoming message"]

/-- The library's `recv_loop`, with the buffer threaded through the
iterations: on `Ok((amt, src))` it calls `recv_message` on
`&buf[..amt]`; on `Err`, `ConnectionReset` is ignored silently and any
other kind is logged; in every case the loop continues. -/
def recv_loop_aux (buf : List Nat) (inputs : List RecvIterInput) :
    List NetEvent :=
  match inputs with
  | [] => []
  | .ok src datagram enqueueOk :: rest =>
    let (amt, buf') := recvFromWrite buf datagram
    recv_message src (buf'.take amt) enqueueOk ++ recv_loop_aux buf' rest
  | .err k :: rest =>
    (match k with
     | .connectionReset => []
     | _ => [NetEvent.logWarn "failed to recv packet"])
      ++ recv_loop_aux buf rest

/-- The library's `recv_loop` started on the zeroed
`[0; BUFFER_MAX_SIZE]` buffer. -/
def recv_loop (inputs : List RecvIterInput) : List NetEvent :=
  recv_loop_aux (List.replicate BUFFER_MAX_SIZE 0) inputs

/-- The server binary's `recv_loop`, buffer threaded as above: the sole
difference from the library's is the error branch, which logs every read
error, `ConnectionReset` included. -/
def recv_loop_server_aux (buf : List Nat) (inputs : List RecvIterInput) :
    List NetEvent :=
  match inputs with
  | [] => []
  | .ok src datagram enqueueOk :: rest =>
    let (amt, buf') := recvFromWrite buf datagram
    recv_message src (buf'.take amt) enqueueOk
      ++ recv_loop_server_aux buf' rest
  | .err _ :: rest =>
    NetEvent.logWarn "failed to recv packet" :: recv_loop_server_aux buf rest

/-- The server binary's `recv_loop` started on the zeroed buffer. -/
def recv_loop_server (inputs : List RecvIterInput) : List NetEvent :=
  recv_loop_server_aux (List.replicate BUFFER_MAX_SIZE 0) inputs

/-- Whether a receive-loop input trace contains a `ConnectionReset` read
failure (the one branch on which the two variants differ). -/
def hasConnReset : List RecvIterInput → Bool
  | [] => false
  | .err .connectionReset :: _ => true
  | _ :: rest => hasConnReset rest

/-!
## Theorems
-/

/-- A `warn!` log line is not an enqueue event. -/
theorem NetEvent.isEnqueue_logWarn (s : String) :
    NetEvent.isEnqueue (NetEvent.logWarn s) = false := rfl

/-- Both send loops behave identically on every input trace (the only
textual difference, blocking `recv()` versus `recv_async().await`, has
the same per-outcome behaviour). -/
theorem send_loop_eq_server (inputs : List SendIterInput) :
    send_loop inputs = send_loop_server inputs := by
  induction inputs with
  | nil => rfl
  | cons head rest ih =>
    cases head with
    | ok message write => simp [send_loop, send_loop_server, ih]
    | disconnected => simp [send_loop, send_loop_server, ih]

/-- On traces with no `ConnectionReset` read failure, the two receive
loops emit the same events from any buffer state. -/
theorem recv_loop_aux_eq_server (buf : List Nat)
    (inputs : List RecvIterInput) (h : hasConnReset inputs = false) :
    recv_loop_aux buf inputs = recv_loop_server_aux buf inputs := by
  induction inputs generalizing buf with
  | nil => rfl
  | cons head rest ih =>
    cases head with
    | ok src datagram enqueueOk =>
      simp [recv_loop_aux, recv_loop_server_aux, ih _ h]
    | err k =>
      cases k with
      | connectionReset => exact Bool.noConfusion h
      | addrInUse => simp [recv_loop_aux, recv_loop_server_aux, ih _ h]
      | permissionDenied =>
        simp [recv_loop_aux, recv_loop_server_aux, ih _ h]
      | other code => simp [recv_loop_aux, recv_loop_server_aux, ih _ h]

/-- The two receive loops construct and enqueue the same inbound
messages on every trace: their traces agree once log lines are filtered
out to the enqueue events. -/
theorem recv_loop_aux_enqueues_eq_server (buf : List Nat)
    (inputs : List RecvIterInput) :
    (recv_loop_aux buf inputs).filter (fun e => NetEvent.isEnqueue e) =
      (recv_loop_server_aux buf inputs).filter
        (fun e => NetEvent.isEnqueue e) := by
  induction inputs generalizing buf with
  | nil => rfl
  | cons head rest ih =>
    cases head with
    | ok src datagram enqueueOk =>
      simp [recv_loop_aux, recv_loop_server_aux, List.filter_append, ih]
    | err k =>
      cases k <;>
        simp [recv_loop_aux, recv_loop_server_aux,
          NetEvent.isEnqueue_logWarn, ih]

/-- C1 counterexample: the claim's behavioural equivalence fails as
stated. On the read-outcome trace consisting of a single
`ConnectionReset` failure, the library's receive loop emits no event
while the server binary's logs a warning, so their error handling
differs on that failure branch. -/
theorem c1_recv_loops_differ_on_connection_reset :
    recv_loop [RecvIterInput.err IOErrorKind.connectionReset] = []
    ∧ recv_loop_server [RecvIterInput.err IOErrorKind.connectionReset] =
        [NetEvent.logWarn "failed to recv packet"]
    ∧ (recv_loop [RecvIterInput.err IOErrorKind.connectionReset] ≠
        recv_loop_server [RecvIterInput.err IOErrorKind.connectionReset]) := by
  refine ⟨by decide, by decide, by decide⟩

/-- C1, amended: the server binary's send loop is behaviourally
equivalent to the library's on every dequeue trace; the receive loops
construct and enqueue the same inbound `Message`s on every read trace,
and are fully trace-equivalent on every trace that contains no
`ConnectionReset` read failure — the one branch where they differ is
that the server logs a `ConnectionReset` read error while the library
ignores it silently. -/
theorem c1_variant_equivalence :
    (∀ inputs : List SendIterInput,
      send_loop inputs = send_loop_server inputs)
    ∧ (∀ inputs : List RecvIterInput, hasConnReset inputs = false →
        recv_loop inputs = recv_loop_server inputs)
    ∧ (∀ inputs : List RecvIterInput,
        (recv_loop inputs).filter (fun e => NetEvent.isEnqueue e) =
          (recv_loop_server inputs).filter
            (fun e => NetEvent.isEnqueue e)) := by
  refine ⟨send_loop_eq_server, fun inputs h => ?_, fun inputs => ?_⟩
  · exact recv_loop_aux_eq_server _ inputs h
  · exact recv_loop_aux_enqueues_eq_server _ inputs

/-- C1 witness: the equivalence applied to a concrete reset-free
trace. -/
theorem c1_variant_equivalence_witness :
    recv_loop [RecvIterInput.ok
        { ip := (127, 0, 0, 1), port := 9001 } [1, 2, 3] true,
      RecvIterInput.err IOErrorKind.addrInUse] =
      recv_loop_server [RecvIterInput.ok
          { ip := (127, 0, 0, 1), port := 9001 } [1, 2, 3] true,
        RecvIterInput.err IOErrorKind.addrInUse] :=
  c1_variant_equivalence.2.1 _ rfl

/-- On a successful read, the payload the loop passes to `recv_message`
is the datagram truncated to the buffer size. -/
theorem recvFromWrite_take (buf : List Nat) (datagram : List Nat) :
    (recvFromWrite buf datagram).2.take (recvFromWrite buf datagram).1 =
      datagram.take (recvFromWrite buf datagram).1
    ∧ ((recvFromWrite buf datagram).2.take
        (recvFromWrite buf datagram).1).length =
      min datagram.length BUFFER_MAX_SIZE := by
  unfold recvFromWrite
  simp only [List.take_append_eq_append_take, List.length_take,
    List.take_take, List.length_append, List.length_drop]
  constructor
  · have h1 : min (min datagram.length BUFFER_MAX_SIZE)
        (min datagram.length BUFFER_MAX_SIZE) =
        min datagram.length BUFFER_MAX_SIZE := by omega
    have h2 : min datagram.length BUFFER_MAX_SIZE -
        min (min datagram.length BUFFER_MAX_SIZE) datagram.length = 0 :=
      by omega
    simp [h1, h2]
  · simp [List.length_take, List.length_append, List.length_drop]

/-- C2: on a successful read of `amt` bytes from `src`, the receive loop
runs `recv_message` on exactly the first `amt` bytes of the receive
buffer, which constructs a `Message` whose address is `src` and whose
payload is those bytes (equal to the datagram truncated to the buffer),
and attempts to enqueue it into the inbound queue; the payload length is
`min (length datagram) BUFFER_MAX_SIZE`, so a datagram larger than the
2000-byte buffer yields a payload of length exactly 2000. -/
theorem c2_recv_constructs_message (buf : List Nat) (src : SocketAddr)
    (datagram : List Nat) (enqueueOk : Bool)
    (rest : List RecvIterInput) :
    recv_loop_aux buf (RecvIterInput.ok src datagram enqueueOk :: rest) =
      recv_message src
          ((recvFromWrite buf datagram).2.take
            (recvFromWrite buf datagram).1) enqueueOk
        ++ recv_loop_aux (recvFromWrite buf datagram).2 rest
    ∧ recv_message src
        ((recvFromWrite buf datagram).2.take
          (recvFromWrite buf datagram).1) true =
      [NetEvent.enqueue (Message.new src
        ((recvFromWrite buf datagram).2.take
          (recvFromWrite buf datagram).1))]
    ∧ (recvFromWrite buf datagram).2.take (recvFromWrite buf datagram).1 =
      datagram.take (recvFromWrite buf datagram).1
    ∧ ((recvFromWrite buf datagram).2.take
        (recvFromWrite buf datagram).1).length =
      min datagram.length BUFFER_MAX_SIZE
    ∧ (BUFFER_MAX_SIZE < datagram.length →
        ((recvFromWrite buf datagram).2.take
          (recvFromWrite buf datagram).1).length = BUFFER_MAX_SIZE) := by
  refine ⟨rfl, rfl, (recvFromWrite_take buf datagram).1, 
    (recvFromWrite_take buf datagram).2, fun hover => ?_⟩
  rw [(recvFromWrite_take buf datagram).2]
  omega

/-- C2 witness: a 2500-byte datagram read into the zeroed buffer yields
a payload of exactly `BUFFER_MAX_SIZE` (2000) bytes. -/
theorem c2_recv_constructs_message_witness :
    ((recvFromWrite (List.replicate BUFFER_MAX_SIZE 0)
        (List.replicate 2500 7)).2.take
      (recvFromWrite (List.replicate BUFFER_MAX_SIZE 0)
        (List.replicate 2500 7)).1).length = BUFFER_MAX_SIZE :=
  (c2_recv_constructs_message (List.replicate BUFFER_MAX_SIZE 0)
    { ip := (127, 0, 0, 1), port := 9001 } (List.replicate 2500 7) true
    []).2.2.2.2 (by norm_num [BUFFER_MAX_SIZE, List.length_replicate])

/-- C3: in the library's receive loop, a `ConnectionReset` read failure
is ignored silently (no event at all, in particular no log), every other
read failure produces exactly one warning log, and in both cases the
loop goes on to process the remaining iterations — it never stops due to
a read error. -/
theorem c3_read_failure_classification :
    ∀ (buf : List Nat) (k : IOErrorKind) (rest : List RecvIterInput),
      recv_loop_aux buf (RecvIterInput.err k :: rest) =
        (if k = IOErrorKind.connectionReset then []
         else [NetEvent.logWarn "failed to recv packet"])
          ++ recv_loop_aux buf rest := by
  intro buf k rest
  cases k <;> simp [recv_loop_aux]

/-- C4 counterexample: the library's bind does not honor the interface
component of a desired local address. `Network::startup` and the
library's `bind_socket` accept only a port; for the concrete local
address `10.0.0.1:5000`, a successful library bind at that port yields a
socket bound to `127.0.0.1:5000`, a different address — no input to the
library's bind produces a socket bound to `10.0.0.1:5000`. -/
theorem c4_interface_not_honored :
    bind_socket 5000 BindOutcome.ok =
      Except.ok { local_addr := { ip := (127, 0, 0, 1), port := 5000 } }
    ∧ ({ local_addr := { ip := (127, 0, 0, 1), port := 5000 } } : Socket)
        ≠ { local_addr := { ip := (10, 0, 0, 1), port := 5000 } }
    ∧ ∀ out : BindOutcome, bind_socket 5000 out ≠
        Except.ok { local_addr := { ip := (10, 0, 0, 1), port := 5000 } } := by
  refine ⟨rfl, by decide, fun out => ?_⟩
  cases out <;> simp [bind_socket]

/-- C4, amended: the library's bind takes only a port — it always binds
to interface `127.0.0.1` at the given port (the port, including a
requested port 0, is passed to the OS unchanged; the interface component
of a desired address is not honored). The server binary's `bind_socket`
does bind to exactly the full local address it is given. -/
theorem c4_bind_addresses :
    (∀ port : Nat, bind_socket port BindOutcome.ok =
      Except.ok { local_addr := { ip := (127, 0, 0, 1), port := port } })
    ∧ (∀ addr : SocketAddr, bind_socket_server addr BindOutcome.ok =
      Except.ok { local_addr := addr }) :=
  ⟨fun _ => rfl, fun _ => rfl⟩

/-- C5: a failed bind is fatal. The library's `bind_socket` panics with
a message naming the attempted bind address (`127.0.0.1:port`), and
`Network::startup` propagates that panic before assigning any field: the
startup result is the error itself, so no socket is returned and no task
handle is ever stored. -/
theorem c5_bind_failure_fatal :
    ∀ (net : Network) (port : Nat) (k : IOErrorKind),
      bind_socket port (BindOutcome.err k) =
        Except.error ("failed to listen on "
          ++ addrToString { ip := (127, 0, 0, 1), port := port } ++ ": "
          ++ ioErrorKindRepr k)
      ∧ Network.startup net port (BindOutcome.err k) =
        Except.error ("failed to listen on "
          ++ addrToString { ip := (127, 0, 0, 1), port := port } ++ ": "
          ++ ioErrorKindRepr k) := by
  intro net port k
  exact ⟨rfl, rfl⟩

/-- C7: for each message the send loop dequeues, it performs exactly one
socket write of that message's payload to that message's address; on a
write failure it appends exactly one warning log naming the target and
then continues with the remaining iterations — one write attempt per
message (no retry), and the loop's trace contains no other effect, so no
error reaches the application. -/
theorem c7_send_single_write :
    ∀ (m : Message) (w : WriteOutcome) (rest : List SendIterInput),
      send_loop (SendIterInput.ok m w :: rest) =
        NetEvent.write m.payload m.address ::
          ((if w = WriteOutcome.ok then []
            else [NetEvent.logWarn ("failed to send packet to "
              ++ addrToString m.address)]) ++ send_loop rest)
      ∧ (send_loop (SendIterInput.ok m w :: rest)).countP
          (fun e => NetEvent.isWrite e) =
        1 + (send_loop rest).countP (fun e => NetEvent.isWrite e) := by
  intro m w rest
  cases w with
  | ok =>
    refine ⟨rfl, ?_⟩
    simp [send_loop, send_message, List.countP_cons, NetEvent.isWrite]
    omega
  | err k =>
    refine ⟨rfl, ?_⟩
    simp [send_loop, send_message, List.countP_cons, List.countP_append,
      NetEvent.isWrite]
    omega

/-- Lemma: `Flume.try_send` touches only the queue contents: capacity and both
handle counts are unchanged in every branch. -/
theorem Flume.try_send_frame {T : Type} (c : FlumeChannel T) (t : T) :
    (Flume.try_send c t).2.capacity = c.capacity
    ∧ (Flume.try_send c t).2.senderCount = c.senderCount
    ∧ (Flume.try_send c t).2.receiverCount = c.receiverCount := by
  obtain ⟨q, cap, sc, rc⟩ := c
  by_cases h : rc = 0
  · simp [Flume.try_send, h]
  · cases cap with
    | none => simp [Flume.try_send, h]
    | some limit =>
      by_cases hf : limit ≤ q.length <;> simp [Flume.try_send, h, hf]

/-- Lemma: `Flume.try_recv` touches only the queue contents: capacity and both
handle counts are unchanged in every branch. -/
theorem Flume.try_recv_frame {T : Type} (c : FlumeChannel T) :
    (Flume.try_recv c).2.capacity = c.capacity
    ∧ (Flume.try_recv c).2.senderCount = c.senderCount
    ∧ (Flume.try_recv c).2.receiverCount = c.receiverCount := by
  obtain ⟨q, cap, sc, rc⟩ := c
  cases q <;> simp [Flume.try_recv]

/-- Unfolding: `Network::try_send` is exactly `Flume.try_send` on `send_channel`,
with the rest of the record carried over. -/
theorem Network.try_send_components (net : Network) (m : Message) :
    (Network.try_send net m).1 = (Flume.try_send net.send_channel m).1
    ∧ (Network.try_send net m).2 =
      { net with send_channel := (Flume.try_send net.send_channel m).2 } := by
  unfold Network.try_send
  rcases Flume.try_send net.send_channel m with ⟨r, ch⟩
  exact ⟨rfl, rfl⟩

/-- Unfolding: `Network::try_recv` is exactly `Flume.try_recv` on `recv_channel`,
with the rest of the record carried over. -/
theorem Network.try_recv_components (net : Network) :
    (Network.try_recv net).1 = (Flume.try_recv net.recv_channel).1
    ∧ (Network.try_recv net).2 =
      { net with recv_channel := (Flume.try_recv net.recv_channel).2 } := by
  unfold Network.try_recv
  rcases Flume.try_recv net.recv_channel with ⟨r, ch⟩
  exact ⟨rfl, rfl⟩

/-- C6: `try_recv` is a total function of the relay state (it never
blocks and never panics); on a relay whose inbound queue is empty — and
whose inbound sender handle is still held, as it is for every `Network`,
which owns one from construction — it returns `Empty`; on a non-empty
inbound queue it returns the head, which is the oldest enqueued message
because enqueues append at the tail. -/
theorem c6_try_recv_contract :
    (∀ net : Network, net.recv_channel.senderCount ≠ 0 →
      net.recv_channel.queue = [] →
      (Network.try_recv net).1 = Except.error TryRecvError.empty)
    ∧ (∀ (net : Network) (m : Message) (q : List Message),
        net.recv_channel.queue = m :: q →
        (Network.try_recv net).1 = Except.ok m)
    ∧ Network.new.recv_channel.senderCount = 1
    ∧ (∀ (c : FlumeChannel Message) (m : Message),
        c.receiverCount ≠ 0 → c.capacity = none →
        (Flume.try_send c m).2.queue = c.queue ++ [m]) := by
  refine ⟨fun net hs hq => ?_, fun net m q hq => ?_, rfl,
    fun c m hr hc => ?_⟩
  · rw [(Network.try_recv_components net).1]
    simp [Flume.try_recv, hq, hs]
  · rw [(Network.try_recv_components net).1]
    simp [Flume.try_recv, hq]
  · simp [Flume.try_send, hr, hc]

/-- C6 witness: on the freshly constructed relay (empty inbound queue,
sender handle held), `try_recv` returns `Empty`. -/
theorem c6_try_recv_contract_witness :
    (Network.try_recv Network.new).1 = Except.error TryRecvError.empty :=
  c6_try_recv_contract.1 Network.new (by decide) rfl

/-- C8: `try_send` is a total (non-blocking) function delegating to the
sender handle of the outbound channel; on an unbounded channel (as both
of the relay's channels are, from `AsyncChannel::new`) it fails exactly
when no receiver handle remains, returning `Disconnected` carrying the
message back, and succeeds otherwise. -/
theorem c8_try_send_contract :
    (∀ (net : Network) (m : Message),
      (Network.try_send net m).1 = (Flume.try_send net.send_channel m).1)
    ∧ (∀ (c : FlumeChannel Message) (m : Message), c.capacity = none →
        (c.receiverCount = 0 →
          (Flume.try_send c m).1 =
            Except.error (TrySendError.disconnected m))
        ∧ (c.receiverCount ≠ 0 →
          (Flume.try_send c m).1 = Except.ok ()))
    ∧ Network.new.send_channel.capacity = none := by
  refine ⟨fun net m => (Network.try_send_components net m).1,
    fun c m hc => ⟨fun hr => ?_, fun hr => ?_⟩, rfl⟩
  · simp [Flume.try_send, hr]
  · simp [Flume.try_send, hr, hc]

/-- C8 witness: on a concrete unbounded channel whose receiver side is
gone, `try_send` returns `Disconnected` carrying the message back. -/
theorem c8_try_send_contract_witness :
    (Flume.try_send
        { queue := [], capacity := none, senderCount := 1,
          receiverCount := 0 }
        (Message.new { ip := (127, 0, 0, 1), port := 1 } [42])).1 =
      Except.error (TrySendError.disconnected
        (Message.new { ip := (127, 0, 0, 1), port := 1 } [42])) :=
  (c8_try_send_contract.2.1 _ _ rfl).1 rfl

/-- C9: `Full` is unreachable. The relay's channels are created
unbounded, every operation preserves unboundedness, and `try_send` on an
unbounded outbound channel never returns the `Full` variant for any
message. -/
theorem c9_try_send_never_full :
    Network.new.send_channel.capacity = none
    ∧ (∀ (net net' : Network) (port : Nat) (outcome : BindOutcome),
        Network.startup net port outcome = Except.ok net' →
        net'.send_channel.capacity = net.send_channel.capacity)
    ∧ (∀ (net : Network) (m : Message),
        (Network.try_send net m).2.send_channel.capacity =
          net.send_channel.capacity)
    ∧ (∀ net : Network,
        (Network.try_recv net).2.send_channel.capacity =
          net.send_channel.capacity)
    ∧ (∀ (net : Network) (m m' : Message),
        net.send_channel.capacity = none →
        (Network.try_send net m).1 ≠
          Except.error (TrySendError.full m')) := by
  refine ⟨rfl, fun net net' port outcome h => ?_, fun net m => ?_,
    fun net => ?_, fun net m m' hc => ?_⟩
  · cases outcome with
    | ok =>
      simp [Network.startup, bind_socket] at h
      subst h
      rfl
    | err k => simp [Network.startup, bind_socket] at h
  · rw [(Network.try_send_components net m).2]
    exact (Flume.try_send_frame net.send_channel m).1
  · rw [(Network.try_recv_components net).2]
  · rw [(Network.try_send_components net m).1]
    by_cases hr : net.send_channel.receiverCount = 0
    · simp [Flume.try_send, hr]
    · simp [Flume.try_send, hr, hc]

/-- C9 witness: on the freshly constructed relay, `try_send` does not
return `Full` for a concrete message. -/
theorem c9_try_send_never_full_witness :
    Network.new.send_channel.capacity = none
    ∧ ((Network.try_send Network.new
        (Message.new { ip := (127, 0, 0, 1), port := 1 } [42])).1 ≠
      Except.error (TrySendError.full
        (Message.new { ip := (127, 0, 0, 1), port := 1 } [42]))) :=
  ⟨rfl, c9_try_send_never_full.2.2.2.2 Network.new _ _ rfl⟩

/-- C10: `try_send` and `try_recv` mutate only the contents of their own
queue. Both leave the `send_task` and `recv_task` handle fields and the
entire opposite channel unchanged, and even on their own channel they
change nothing but the buffered items (capacity and handle counts are
preserved); in particular neither stores a task handle (no spawn) and
neither touches anything socket-related. -/
theorem c10_try_ops_frame :
    ∀ (net : Network) (m : Message),
      ((Network.try_send net m).2.send_task = net.send_task
        ∧ (Network.try_send net m).2.recv_task = net.recv_task
        ∧ (Network.try_send net m).2.recv_channel = net.recv_channel
        ∧ (Network.try_send net m).2.send_channel.capacity =
            net.send_channel.capacity
        ∧ (Network.try_send net m).2.send_channel.senderCount =
            net.send_channel.senderCount
        ∧ (Network.try_send net m).2.send_channel.receiverCount =
            net.send_channel.receiverCount)
      ∧ ((Network.try_recv net).2.send_task = net.send_task
        ∧ (Network.try_recv net).2.recv_task = net.recv_task
        ∧ (Network.try_recv net).2.send_channel = net.send_channel
        ∧ (Network.try_recv net).2.recv_channel.capacity =
            net.recv_channel.capacity
        ∧ (Network.try_recv net).2.recv_channel.senderCount =
            net.recv_channel.senderCount
        ∧ (Network.try_recv net).2.recv_channel.receiverCount =
            net.recv_channel.receiverCount) := by
  intro net m
  rw [(Network.try_send_components net m).2,
    (Network.try_recv_components net).2]
  exact ⟨⟨rfl, rfl, rfl, (Flume.try_send_frame net.send_channel m).1,
      (Flume.try_send_frame net.send_channel m).2.1,
      (Flume.try_send_frame net.send_channel m).2.2⟩,
    ⟨rfl, rfl, rfl, (Flume.try_recv_frame net.recv_channel).1,
      (Flume.try_recv_frame net.recv_channel).2.1,
      (Flume.try_recv_frame net.recv_channel).2.2⟩⟩
